import Mathlib

/-!
Verification of the MustProxy Yandex-Metrika attribution core.

Shallow embedding of:
  - `bot/services/yandex_metrika_service.py` (validation, send operations,
    visit tracking, the full conversion chain, batch resend);
  - `db/dal/yandex_tracking_dal.py` (tracking / conversion persistence).

Modelling conventions:
  - timestamps are `Int` seconds since the epoch (a `timedelta(hours=12)`
    is `43200`, `timedelta(hours=12, minutes=30)` is `45000`);
  - monetary amounts are `Int` (no claim depends on fractional amounts);
  - the database session is an explicit `DB` value threaded through calls;
  - outbound HTTP is an oracle `Net` mapping the request's query parameters
    to the success of the request (`true` ⇔ HTTP 200); every send operation
    also returns the list of requests it attempted, so "no outbound I/O"
    is `requests = []`;
  - Python `str.strip` / `str.replace('.', '')` / `str.isdigit` are embedded
    on the character list of the string; `isdigit` is restricted to ASCII
    decimal digits, which is faithful on every input the claims mention.
-/

namespace MustProxy

/-- Python `str.strip()`: drop whitespace from both ends. -/
def pyStrip (s : String) : String :=
  ⟨((s.data.dropWhile Char.isWhitespace).reverse.dropWhile Char.isWhitespace).reverse⟩

/-- Python `s.replace('.', '')`: remove every dot. -/
def pyRemoveDots (s : String) : String :=
  ⟨s.data.filter (fun c => !(c == '.'))⟩

/-- Python `str.isdigit()` (ASCII fragment): non-empty and all decimal digits. -/
def pyIsdigit (s : String) : Bool :=
  !s.data.isEmpty && s.data.all Char.isDigit

/-- `YandexMetrikaService._validate_client_id` (yandex_metrika_service.py:38-50);
`clean_id` is written out as `pyStrip client_id`. -/
def validate_client_id (client_id : String) : Bool :=
  if client_id = "" ∨ (pyStrip client_id).length = 0 then false
  else if !(pyIsdigit (pyRemoveDots (pyStrip client_id))) then false
  else if (pyStrip client_id).length < 10 ∨ (pyStrip client_id).length > 30 then false
  else true

/-- `YandexTracking` row (schema per the DAL and migrator:
tracking_id PK, user_id, yandex_client_id, counter_id, first_visit_time,
last_visit_time nullable, visit_count, created_at). -/
structure YandexTracking where
  tracking_id : Nat
  user_id : Nat
  yandex_client_id : String
  counter_id : Option String
  first_visit_time : Int
  last_visit_time : Option Int
  visit_count : Nat
  created_at : Int
deriving DecidableEq, Repr

/-- `YandexConversion` row (migrator: conversion_id PK, user_id, payment_id,
amount, sent_at, UNIQUE (user_id, payment_id)). -/
structure YandexConversion where
  conversion_id : Nat
  user_id : Nat
  payment_id : String
  amount : Int
  sent_at : Int
deriving DecidableEq, Repr

/-- `Payment` row, restricted to the fields read by
`get_users_with_untracked_payments`. -/
structure Payment where
  payment_id : String
  user_id : Nat
  status : String
  amount : Int
  subscription_duration_months : Nat
  promo_code : Option String
  created_at : Int
deriving DecidableEq, Repr

/-- The database state visible to the attribution core: the
`yandex_tracking`, `yandex_conversions` and `payments` tables, in table
order, plus a counter supplying fresh surrogate keys. -/
structure DB where
  trackings : List YandexTracking
  conversions : List YandexConversion
  payments : List Payment
  next_id : Nat
deriving DecidableEq, Repr

/-- `get_tracking_by_user_id` (yandex_tracking_dal.py:65-77): the matching
row with the greatest `created_at` (ORDER BY created_at DESC LIMIT 1). -/
def get_tracking_by_user_id (db : DB) (user_id : Nat) : Option YandexTracking :=
  (db.trackings.filter (fun t => t.user_id == user_id)).foldl
    (fun acc t =>
      match acc with
      | none => some t
      | some b => if t.created_at > b.created_at then some t else some b)
    none

/-- `create_yandex_tracking` (yandex_tracking_dal.py:13-62).  If a row exists
for `user_id` and its client id differs, every row of that user is updated
(new client id / counter id, `last_visit_time = now`,
`visit_count = existing.visit_count + 1`) and the refreshed row is
returned; if the client id is identical the row is returned unchanged;
otherwise a fresh row with `visit_count = 1` and
`first_visit_time = last_visit_time = now` is inserted.  The `except`
branch (rollback, return None) is unreachable in the pure model. -/
def create_yandex_tracking (db : DB) (now : Int) (user_id : Nat)
    (yandex_client_id : String) (counter_id : Option String) :
    DB × Option YandexTracking :=
  match get_tracking_by_user_id db user_id with
  | some existing =>
    if existing.yandex_client_id ≠ yandex_client_id then
      let upd := fun (t : YandexTracking) =>
        if t.user_id == user_id then
          { t with yandex_client_id := yandex_client_id, counter_id := counter_id,
                   last_visit_time := some now,
                   visit_count := existing.visit_count + 1 }
        else t
      let refreshed :=
        { existing with yandex_client_id := yandex_client_id, counter_id := counter_id,
                        last_visit_time := some now,
                        visit_count := existing.visit_count + 1 }
      ({ db with trackings := db.trackings.map upd }, some refreshed)
    else
      (db, some existing)
  | none =>
    let row : YandexTracking :=
      { tracking_id := db.next_id, user_id := user_id,
        yandex_client_id := yandex_client_id, counter_id := counter_id,
        first_visit_time := now, last_visit_time := some now,
        visit_count := 1, created_at := now }
    ({ db with trackings := db.trackings ++ [row], next_id := db.next_id + 1 },
     some row)

/-- `update_last_visit_time` (yandex_tracking_dal.py:80-91). -/
def update_last_visit_time (db : DB) (now : Int) (tracking_id : Nat) : DB × Bool :=
  ({ db with trackings := db.trackings.map (fun t =>
      if t.tracking_id == tracking_id then { t with last_visit_time := some now } else t) },
   db.trackings.any (fun t => t.tracking_id == tracking_id))

/-- `increment_visit_count` (yandex_tracking_dal.py:94-105): an atomic
`SET visit_count = visit_count + 1`. -/
def increment_visit_count (db : DB) (tracking_id : Nat) : DB × Bool :=
  ({ db with trackings := db.trackings.map (fun t =>
      if t.tracking_id == tracking_id then { t with visit_count := t.visit_count + 1 } else t) },
   db.trackings.any (fun t => t.tracking_id == tracking_id))

/-- `is_conversion_sent_for_payment` (yandex_tracking_dal.py:131-144). -/
def is_conversion_sent_for_payment (db : DB) (user_id : Nat) (payment_id : String) : Bool :=
  db.conversions.any (fun c => c.user_id == user_id && c.payment_id == payment_id)

/-- `save_conversion_record` (yandex_tracking_dal.py:108-128).  The function
body performs no duplicate check: it constructs the row and flushes.
Modelled from the spec: the `YandexConversion` model (db/models.py, not in
src/) carries `UNIQUE (user_id, payment_id)` — per spec §6 and the
migrator's `uq_user_payment_conversion` — so the flush fails on a
duplicate pair; the exception is caught and `None` returned with nothing
persisted. -/
def save_conversion_record (db : DB) (now : Int) (user_id : Nat)
    (payment_id : String) (amount : Int) : DB × Option YandexConversion :=
  if is_conversion_sent_for_payment db user_id payment_id then
    (db, none)
  else
    let row : YandexConversion :=
      { conversion_id := db.next_id, user_id := user_id, payment_id := payment_id,
        amount := amount, sent_at := now }
    ({ db with conversions := db.conversions ++ [row], next_id := db.next_id + 1 },
     some row)

/-- The body of `save_conversion_record` exactly as written
(yandex_tracking_dal.py:115-125): construct the row, add, flush — with a
storage layer whose flush never rejects.  Used to show that the function
itself performs no pre-insert duplicate check. -/
def save_conversion_record_unchecked (db : DB) (now : Int) (user_id : Nat)
    (payment_id : String) (amount : Int) : DB × Option YandexConversion :=
  let row : YandexConversion :=
    { conversion_id := db.next_id, user_id := user_id, payment_id := payment_id,
      amount := amount, sent_at := now }
  ({ db with conversions := db.conversions ++ [row], next_id := db.next_id + 1 },
   some row)

/-- HTTP oracle: the request's query parameters ↦ success of the outbound
request (`true` ⇔ HTTP 200; timeouts and network errors are `false`). -/
def Net : Type := List (String × String) → Bool

/-- One outbound request attempted by `_send_request`. -/
structure Request where
  params : List (String × String)
  event_type : String
deriving DecidableEq, Repr

/-- Result of a send operation: the returned boolean plus the outbound
requests attempted (empty ⇔ no outbound I/O). -/
structure SendResult where
  ok : Bool
  requests : List Request
deriving DecidableEq, Repr

/-- Service configuration read in `__init__` (yandex_metrika_service.py:18-24). -/
structure MetrikaConfig where
  counter_id : Option String
  token : Option String
  bot_username : String
deriving DecidableEq, Repr

/-- Python truthiness of an optional string (`None` and `""` are falsy). -/
def truthyStr : Option String → Bool
  | none => false
  | some s => !(s == "")

/-- `self.configured = bool(self.counter_id and self.measurement_token)`. -/
def configured (cfg : MetrikaConfig) : Bool :=
  truthyStr cfg.counter_id && truthyStr cfg.token

/-- Python `page_url or default` (`None` and `""` fall back). -/
def pyOrStr (o : Option String) (d : String) : String :=
  match o with
  | none => d
  | some s => if s = "" then d else s

/-- `'et': str(event_time) if event_time else str(int(time.time()))`. -/
def etParam (event_time : Option Int) (now : Int) : String :=
  match event_time with
  | some t => if t = 0 then toString now else toString t
  | none => toString now

/-- `self.VISIT_COMPLETION_HOURS = 12`. -/
def VISIT_COMPLETION_HOURS : Int := 12

/-- `self.SESSION_TIMEOUT_MINUTES = 30`. -/
def SESSION_TIMEOUT_MINUTES : Int := 30

/-- Seconds in `timedelta(hours=12, minutes=30)` (track_visit threshold). -/
def trackVisitThresholdSeconds : Int :=
  VISIT_COMPLETION_HOURS * 3600 + SESSION_TIMEOUT_MINUTES * 60

/-- Seconds in `timedelta(hours=12)` (conversion-chain threshold). -/
def chainVisitThresholdSeconds : Int := VISIT_COMPLETION_HOURS * 3600

/-- `tracking.last_visit_time or tracking.first_visit_time`. -/
def last_or_first (t : YandexTracking) : Int :=
  t.last_visit_time.getD t.first_visit_time

/-- `_send_request` (yandex_metrika_service.py:397-423): one bounded-timeout
outbound request; the returned boolean is the oracle's verdict. -/
def send_request (net : Net) (params : List (String × String))
    (event_type : String) : SendResult :=
  ⟨net params, [⟨params, event_type⟩]⟩

/-- `send_pageview` (yandex_metrika_service.py:114-145). -/
def send_pageview (cfg : MetrikaConfig) (net : Net) (client_id : String)
    (page_url : Option String) (page_title : String) (referrer : String)
    (event_time : Option Int) (now : Int) : SendResult :=
  if !(configured cfg) then ⟨false, []⟩
  else if !(validate_client_id client_id) then ⟨false, []⟩
  else
    let url := page_url.getD ("https://t.me/" ++ cfg.bot_username)
    send_request net
      [("tid", cfg.counter_id.getD ""), ("cid", pyStrip client_id),
       ("t", "pageview"), ("dr", referrer), ("dl", url), ("dt", page_title),
       ("et", etParam event_time now), ("ms", cfg.token.getD "")]
      "pageview"

/-- `send_conversion` (yandex_metrika_service.py:147-180): the generic
custom-event / goal primitive. -/
def send_conversion (cfg : MetrikaConfig) (net : Net) (client_id : String)
    (goal_name : String) (goal_value : Option Int) (currency : String)
    (page_url : Option String) (event_time : Option Int) (now : Int) : SendResult :=
  if !(configured cfg) then ⟨false, []⟩
  else if !(validate_client_id client_id) then ⟨false, []⟩
  else
    let url := page_url.getD ("https://t.me/" ++ cfg.bot_username ++ "/purchase")
    let base :=
      [("tid", cfg.counter_id.getD ""), ("cid", pyStrip client_id),
       ("t", "event"), ("ea", goal_name), ("et", etParam event_time now),
       ("dl", url), ("ms", cfg.token.getD "")]
    let ps := base ++
      (match goal_value with
       | some v => [("ev", toString v), ("cu", currency)]
       | none => [])
    send_request net ps "conversion"

/-- One entry of the `products` list passed to `send_ecommerce_purchase`;
optional fields model the `dict.get` defaults. -/
structure Product where
  id : Option String
  name : Option String
  brand : Option String
  category : Option String
  price : Option Int
  quantity : Option Nat
  variant : Option String
  coupon : Option String
deriving DecidableEq, Repr

/-- The `pr{i}...` parameters built by the `for i, product in
enumerate(products, 1)` loop of `send_ecommerce_purchase`. -/
def productParams (revenue : Int) : Nat → List Product → List (String × String)
  | _, [] => []
  | i, p :: rest =>
    let pre := "pr" ++ toString i
    ([(pre ++ "id", p.id.getD ("product_" ++ toString i)),
      (pre ++ "nm", p.name.getD "Subscription"),
      (pre ++ "br", p.brand.getD "Proxy Service"),
      (pre ++ "ca", p.category.getD "Subscription"),
      (pre ++ "pr", toString (p.price.getD revenue)),
      (pre ++ "qt", toString (p.quantity.getD 1)),
      (pre ++ "va", p.variant.getD "monthly")]
     ++ (match p.coupon with
         | some c => if c = "" then [] else [(pre ++ "cc", c)]
         | none => []))
    ++ productParams revenue (i + 1) rest

/-- `send_ecommerce_purchase` (yandex_metrika_service.py:182-237).
Note: unlike the other send operations it performs no client-id
validation. -/
def send_ecommerce_purchase (cfg : MetrikaConfig) (net : Net) (client_id : String)
    (transaction_id : String) (revenue : Int) (currency : String)
    (products : List Product) (page_url : Option String)
    (event_time : Option Int) (coupon : Option String) (now : Int) : SendResult :=
  if !(configured cfg) then ⟨false, []⟩
  else
    let url := page_url.getD ("https://t.me/" ++ cfg.bot_username ++ "/purchase")
    let base :=
      [("tid", cfg.counter_id.getD ""), ("cid", client_id), ("t", "event"),
       ("et", etParam event_time now), ("pa", "purchase"),
       ("ti", transaction_id), ("tr", toString revenue), ("cu", currency),
       ("dl", url), ("ms", cfg.token.getD "")]
    let withCoupon := base ++
      (match coupon with
       | some c => if c = "" then [] else [("tcc", c)]
       | none => [])
    let ps := withCoupon ++
      (if products.isEmpty then
        [("pr1id", "subscription"), ("pr1nm", "Proxy Subscription"),
         ("pr1br", "Proxy Service"), ("pr1ca", "Subscription"),
         ("pr1pr", toString revenue), ("pr1qt", "1")]
      else productParams revenue 1 products)
    send_request net ps "ecommerce_purchase"

/-- Result of a stateful service operation: the updated database, the
returned boolean, and the outbound requests attempted. -/
structure ChainResult where
  db : DB
  ok : Bool
  requests : List Request
deriving DecidableEq, Repr

/-- `track_visit` (yandex_metrika_service.py:52-112). -/
def track_visit (cfg : MetrikaConfig) (net : Net) (db : DB) (now : Int)
    (user_id : Nat) (client_id : String) (page_url : Option String)
    (page_title : String) (referrer : String) : ChainResult :=
  if !(configured cfg) || !(validate_client_id client_id) then ⟨db, false, []⟩
  else
    match get_tracking_by_user_id db user_id with
    | some tracking =>
      if now - last_or_first tracking > trackVisitThresholdSeconds then
        let pv := send_pageview cfg net client_id
          (some (pyOrStr page_url ("https://t.me/" ++ cfg.bot_username)))
          page_title referrer none now
        if pv.ok then
          let db1 := (update_last_visit_time db now tracking.tracking_id).1
          let db2 := (increment_visit_count db1 tracking.tracking_id).1
          ⟨db2, true, pv.requests⟩
        else ⟨db, false, pv.requests⟩
      else ⟨db, true, []⟩
    | none =>
      match create_yandex_tracking db now user_id client_id cfg.counter_id with
      | (db1, some _) =>
        let pv := send_pageview cfg net client_id
          (some (pyOrStr page_url ("https://t.me/" ++ cfg.bot_username)))
          "First Visit" referrer none now
        ⟨db1, pv.ok, pv.requests⟩
      | (db1, none) => ⟨db1, false, []⟩

/-- The single product dict built by `send_full_conversion_chain`
(yandex_metrika_service.py:296-305). -/
def chainProducts (payment_amount : Int) (subscription_months : Nat)
    (promo_code : Option String) : List Product :=
  [{ id := some ("subscription_" ++ toString subscription_months ++ "m"),
     name := some ("Proxy Subscription " ++ toString subscription_months ++ " month"
                   ++ (if subscription_months > 1 then "s" else "")),
     brand := some "Proxy Service",
     category := some ((if subscription_months = 0 then "Trial" else "Premium")
                       ++ " Subscription"),
     price := some payment_amount,
     quantity := some 1,
     variant := some (toString subscription_months ++ "_months"),
     coupon := promo_code }]

/-- Steps 6-8 of `send_full_conversion_chain`
(yandex_metrika_service.py:317-339), given the ecommerce send's result:
on success send the best-effort `purchase_completed` goal (result
ignored) and persist the conversion record; on failure return false with
nothing persisted. -/
def chainAfterEcom (cfg : MetrikaConfig) (net : Net) (db : DB) (now : Int)
    (user_id : Nat) (payment_amount : Int) (payment_id : String)
    (client_id page_url : String) (reqs0 : List Request)
    (ecom : SendResult) : ChainResult :=
  if ecom.ok then
    let conv := send_conversion cfg net client_id "purchase_completed"
      (some payment_amount) "RUB" (some page_url) none now
    let db1 := (save_conversion_record db now user_id payment_id payment_amount).1
    ⟨db1, true, reqs0 ++ ecom.requests ++ conv.requests⟩
  else ⟨db, false, reqs0 ++ ecom.requests⟩

/-- Steps 5-8 of `send_full_conversion_chain`
(yandex_metrika_service.py:295-339): build the product line, send the
ecommerce purchase, then proceed per its result.  `reqs0` carries the
requests already attempted by the visit-reopen step. -/
def chainFinish (cfg : MetrikaConfig) (net : Net) (db : DB) (now : Int)
    (user_id : Nat) (payment_amount : Int) (payment_id : String)
    (subscription_months : Nat) (promo_code : Option String)
    (client_id page_url : String) (reqs0 : List Request) : ChainResult :=
  chainAfterEcom cfg net db now user_id payment_amount payment_id client_id
    page_url reqs0
    (send_ecommerce_purchase cfg net client_id payment_id payment_amount "RUB"
      (chainProducts payment_amount subscription_months promo_code)
      (some page_url) none promo_code now)

/-- `send_full_conversion_chain` (yandex_metrika_service.py:239-339). -/
def send_full_conversion_chain (cfg : MetrikaConfig) (net : Net) (db : DB)
    (now : Int) (user_id : Nat) (payment_amount : Int) (payment_id : String)
    (subscription_months : Nat) (promo_code : Option String) : ChainResult :=
  if !(configured cfg) then ⟨db, false, []⟩
  else
    match get_tracking_by_user_id db user_id with
    | none => ⟨db, false, []⟩
    | some tracking =>
      if is_conversion_sent_for_payment db user_id payment_id then ⟨db, true, []⟩
      else
        let client_id := tracking.yandex_client_id
        let page_url := "https://t.me/" ++ cfg.bot_username ++ "/purchase"
        if now - last_or_first tracking > chainVisitThresholdSeconds then
          let pv := send_pageview cfg net client_id (some page_url)
            "Purchase Visit" "https://yandex.ru" none now
          if pv.ok then
            let db1 := (update_last_visit_time db now tracking.tracking_id).1
            let db2 := (increment_visit_count db1 tracking.tracking_id).1
            chainFinish cfg net db2 now user_id payment_amount payment_id
              subscription_months promo_code client_id page_url pv.requests
          else ⟨db, false, pv.requests⟩
        else
          chainFinish cfg net db now user_id payment_amount payment_id
            subscription_months promo_code client_id page_url []

/-- One payment dict built by `get_users_with_untracked_payments`. -/
structure PaymentInfo where
  payment_id : String
  amount : Int
  subscription_duration_months : Nat
  promo_code : Option String
  created_at : Int
deriving DecidableEq, Repr

/-- The per-user value of the dictionary returned by
`get_users_with_untracked_payments`. -/
structure UserPayments where
  client_id : String
  payments : List PaymentInfo
deriving DecidableEq, Repr

/-- Insert keeping the list sorted by `created_at` descending
(`ORDER BY Payment.created_at DESC`). -/
def insertPaymentDesc (p : Payment) : List Payment → List Payment
  | [] => [p]
  | q :: qs =>
    if p.created_at ≥ q.created_at then p :: q :: qs
    else q :: insertPaymentDesc p qs

/-- Sort by `created_at` descending. -/
def sortPaymentsDesc (l : List Payment) : List Payment :=
  l.foldr insertPaymentDesc []

/-- Python dict assignment `result[user_id] = v` preserving insertion
order. -/
def dictInsert (k : Nat) (v : UserPayments) :
    List (Nat × UserPayments) → List (Nat × UserPayments)
  | [] => [(k, v)]
  | (k0, v0) :: rest =>
    if k0 == k then (k, v) :: rest else (k0, v0) :: dictInsert k v rest

/-- `get_users_with_untracked_payments` (yandex_tracking_dal.py:147-200):
for the first `limit` tracking rows, collect the user's succeeded payments
whose payment id has no conversion record for that user, newest first. -/
def get_users_with_untracked_payments (db : DB) (limit : Nat) :
    List (Nat × UserPayments) :=
  (db.trackings.take limit).foldl
    (fun acc tracking =>
      let pays := sortPaymentsDesc (db.payments.filter (fun p =>
        p.user_id == tracking.user_id && p.status == "succeeded" &&
        !((db.conversions.filter (fun c => c.user_id == tracking.user_id)).any
            (fun c => c.payment_id == p.payment_id))))
      if pays.isEmpty then acc
      else
        dictInsert tracking.user_id
          { client_id := tracking.yandex_client_id,
            payments := pays.map (fun p =>
              { payment_id := p.payment_id, amount := p.amount,
                subscription_duration_months := p.subscription_duration_months,
                promo_code := p.promo_code, created_at := p.created_at }) }
          acc)
    []

/-- The `{"processed": _, "success": _, "failed": _}` tally. -/
structure Tally where
  processed : Nat
  success : Nat
  failed : Nat
deriving DecidableEq, Repr

/-- The body of the inner `for payment in payment_data['payments']` loop of
`resend_missing_conversions`: run the chain for one payment and count the
outcome. -/
def resendPaymentStep (cfg : MetrikaConfig) (net : Net) (now : Int) (uid : Nat)
    (acc : DB × Tally × List Request) (p : PaymentInfo) :
    DB × Tally × List Request :=
  let r := send_full_conversion_chain cfg net acc.1 now uid p.amount p.payment_id
    p.subscription_duration_months p.promo_code
  (r.db,
   (if r.ok then { acc.2.1 with success := acc.2.1.success + 1 }
    else { acc.2.1 with failed := acc.2.1.failed + 1 }),
   acc.2.2 ++ r.requests)

/-- The body of the outer `for user_id, payment_data in …` loop of
`resend_missing_conversions`: count the user as processed, then handle
each of the user's payments. -/
def resendUserStep (cfg : MetrikaConfig) (net : Net) (now : Int)
    (acc : DB × Tally × List Request) (entry : Nat × UserPayments) :
    DB × Tally × List Request :=
  entry.2.payments.foldl (resendPaymentStep cfg net now entry.1)
    (acc.1, { acc.2.1 with processed := acc.2.1.processed + 1 }, acc.2.2)

/-- `resend_missing_conversions` (yandex_metrika_service.py:341-385):
`processed` is incremented once per user entry, then the chain runs once
per payment of that user, incrementing `success` or `failed`.  The
per-user `except` branch is unreachable in the pure model (no call in the
loop raises). -/
def resend_missing_conversions (cfg : MetrikaConfig) (net : Net) (db : DB)
    (now : Int) (limit : Nat) : DB × Tally × List Request :=
  if !(configured cfg) then (db, ⟨0, 0, 0⟩, [])
  else
    (get_users_with_untracked_payments db limit).foldl
      (resendUserStep cfg net now) (db, ⟨0, 0, 0⟩, [])

/-- Formalisation of the spec's `validateClientId` sentence, for comparison
with the implementation: "non-empty; every character is a digit or `.`;
length at least 10 and at most 30". -/
def spec_validate_client_id (s : String) : Bool :=
  decide (s ≠ "" ∧ (∀ c ∈ s.data, c.isDigit = true ∨ c = '.') ∧
    10 ≤ s.length ∧ s.length ≤ 30)

/-- Formalisation of the spec's `isVisitOpen` sentence, for comparison with
the implementation: open iff `now - max(last_visit_time, first_visit_time)
≤ visit_completion_hours + session_timeout_minutes` (defaults 12h + 30min);
a record with no prior visit is always closed. -/
def spec_is_visit_open (t : YandexTracking) (now : Int) : Bool :=
  match t.last_visit_time with
  | none => false
  | some lv => decide (now - max lv t.first_visit_time ≤ 45000)

/-! ### Structural lemmas about the send operations and the chain -/

/-- When configured, `send_ecommerce_purchase` attempts exactly one
outbound request whose verdict is the oracle's. -/
lemma send_ecommerce_purchase_shape (cfg : MetrikaConfig) (net : Net)
    (client_id transaction_id : String) (revenue : Int) (currency : String)
    (products : List Product) (page_url : Option String)
    (event_time : Option Int) (coupon : Option String) (now : Int)
    (hc : configured cfg = true) :
    ∃ ps, send_ecommerce_purchase cfg net client_id transaction_id revenue
        currency products page_url event_time coupon now
      = ⟨net ps, [⟨ps, "ecommerce_purchase"⟩]⟩ := by
  unfold send_ecommerce_purchase
  simp only [hc, Bool.not_true, Bool.false_eq_true, if_false]
  exact ⟨_, rfl⟩

/-- When configured and the client id validates, `send_pageview` attempts
exactly one outbound request. -/
lemma send_pageview_shape (cfg : MetrikaConfig) (net : Net) (client_id : String)
    (page_url : Option String) (page_title referrer : String)
    (event_time : Option Int) (now : Int)
    (hc : configured cfg = true) (hv : validate_client_id client_id = true) :
    ∃ ps, send_pageview cfg net client_id page_url page_title referrer event_time now
      = ⟨net ps, [⟨ps, "pageview"⟩]⟩ := by
  unfold send_pageview
  simp only [hc, hv, Bool.not_true, Bool.false_eq_true, if_false]
  exact ⟨_, rfl⟩

/-- `send_pageview` either short-circuits with no request or attempts
exactly one. -/
lemma send_pageview_cases (cfg : MetrikaConfig) (net : Net) (client_id : String)
    (page_url : Option String) (page_title referrer : String)
    (event_time : Option Int) (now : Int) :
    send_pageview cfg net client_id page_url page_title referrer event_time now
      = ⟨false, []⟩
    ∨ ∃ ps, send_pageview cfg net client_id page_url page_title referrer event_time
          now
        = ⟨net ps, [⟨ps, "pageview"⟩]⟩ := by
  by_cases h1 : configured cfg = true
  · by_cases h2 : validate_client_id client_id = true
    · exact Or.inr (send_pageview_shape cfg net client_id page_url page_title
        referrer event_time now h1 h2)
    · rw [Bool.not_eq_true] at h2
      left
      unfold send_pageview
      simp [h1, h2]
  · rw [Bool.not_eq_true] at h1
    left
    unfold send_pageview
    simp [h1]

/-- `send_conversion` either short-circuits with no request or attempts
exactly one. -/
lemma send_conversion_cases (cfg : MetrikaConfig) (net : Net) (client_id : String)
    (goal_name : String) (goal_value : Option Int) (currency : String)
    (page_url : Option String) (event_time : Option Int) (now : Int) :
    send_conversion cfg net client_id goal_name goal_value currency page_url
        event_time now
      = ⟨false, []⟩
    ∨ ∃ ps, send_conversion cfg net client_id goal_name goal_value currency
          page_url event_time now
        = ⟨net ps, [⟨ps, "conversion"⟩]⟩ := by
  by_cases h1 : configured cfg = true
  · by_cases h2 : validate_client_id client_id = true
    · right
      unfold send_conversion
      simp only [h1, h2, Bool.not_true, Bool.false_eq_true, if_false]
      exact ⟨_, rfl⟩
    · rw [Bool.not_eq_true] at h2
      left
      unfold send_conversion
      simp [h1, h2]
  · rw [Bool.not_eq_true] at h1
    left
    unfold send_conversion
    simp [h1]

/-- `chainFinish`, resolved by the oracle's verdict on the ecommerce
request. -/
lemma chainFinish_cases (cfg : MetrikaConfig) (net : Net) (db : DB) (now : Int)
    (uid : Nat) (amt : Int) (pid : String) (m : Nat) (promo : Option String)
    (client_id page_url : String) (reqs0 : List Request)
    (hc : configured cfg = true) :
    ∃ (ps : List (String × String)) (convReqs : List Request),
      (∀ r ∈ convReqs, r.event_type = "conversion") ∧
      (net ps = true →
        chainFinish cfg net db now uid amt pid m promo client_id page_url reqs0
          = ⟨(save_conversion_record db now uid pid amt).1, true,
             reqs0 ++ ⟨ps, "ecommerce_purchase"⟩ :: convReqs⟩) ∧
      (net ps = false →
        chainFinish cfg net db now uid amt pid m promo client_id page_url reqs0
          = ⟨db, false, reqs0 ++ [⟨ps, "ecommerce_purchase"⟩]⟩) := by
  obtain ⟨ps, hecom⟩ := send_ecommerce_purchase_shape cfg net client_id pid amt
    "RUB" (chainProducts amt m promo) (some page_url) none promo now hc
  refine ⟨ps,
    (send_conversion cfg net client_id "purchase_completed" (some amt) "RUB"
      (some page_url) none now).requests, ?_, ?_, ?_⟩
  · rcases send_conversion_cases cfg net client_id "purchase_completed" (some amt)
      "RUB" (some page_url) none now with h | ⟨ps2, h⟩
    · rw [h]
      intro r hr
      exact absurd hr (List.not_mem_nil r)
    · rw [h]
      intro r hr
      simp only [List.mem_singleton] at hr
      rw [hr]
  · intro hnet
    unfold chainFinish chainAfterEcom
    rw [hecom]
    simp [hnet]
  · intro hnet
    unfold chainFinish chainAfterEcom
    rw [hecom]
    simp [hnet]

/-- `save_conversion_record` never changes the tracking table. -/
lemma save_conversion_record_trackings (db : DB) (now : Int) (uid : Nat)
    (pid : String) (amt : Int) :
    ((save_conversion_record db now uid pid amt).1).trackings = db.trackings := by
  unfold save_conversion_record
  split <;> rfl

/-- `get_tracking_by_user_id` reads only the tracking table. -/
lemma get_tracking_eq_of_trackings_eq (db1 db2 : DB) (uid : Nat)
    (h : db1.trackings = db2.trackings) :
    get_tracking_by_user_id db1 uid = get_tracking_by_user_id db2 uid := by
  unfold get_tracking_by_user_id
  rw [h]

/-- Filtering by user commutes with a row map preserving `user_id`. -/
lemma filter_user_map (f : YandexTracking → YandexTracking)
    (hu : ∀ tr, (f tr).user_id = tr.user_id) (uid : Nat)
    (l : List YandexTracking) :
    (l.map f).filter (fun tr => tr.user_id == uid)
      = (l.filter (fun tr => tr.user_id == uid)).map f := by
  induction l with
  | nil => rfl
  | cons a l ih =>
    simp only [List.map_cons, List.filter_cons, hu a]
    by_cases h : (a.user_id == uid) = true
    · rw [h]
      simp only [if_true, List.map_cons, ih]
    · rw [Bool.not_eq_true] at h
      rw [h]
      simp only [Bool.false_eq_true, if_false, ih]

/-- Selecting the latest row commutes with a row map preserving
`created_at`. -/
lemma pick_foldl_map (f : YandexTracking → YandexTracking)
    (hca : ∀ tr, (f tr).created_at = tr.created_at) :
    ∀ (l : List YandexTracking) (acc : Option YandexTracking),
      ((l.map f).foldl
        (fun acc t =>
          match acc with
          | none => some t
          | some b => if t.created_at > b.created_at then some t else some b)
        (acc.map f))
      = (l.foldl
          (fun acc t =>
            match acc with
            | none => some t
            | some b => if t.created_at > b.created_at then some t else some b)
          acc).map f := by
  intro l
  induction l with
  | nil => intro acc; rfl
  | cons a l ih =>
    intro acc
    have hstep :
        (match acc.map f with
         | none => some (f a)
         | some b => if (f a).created_at > b.created_at then some (f a) else some b)
        = (match acc with
           | none => some a
           | some b =>
             if a.created_at > b.created_at then some a else some b).map f := by
      cases acc with
      | none => rfl
      | some b =>
        simp only [Option.map_some']
        rw [hca a, hca b]
        by_cases h : a.created_at > b.created_at
        · rw [if_pos h, if_pos h]
          rfl
        · rw [if_neg h, if_neg h]
          rfl
    simp only [List.map_cons, List.foldl_cons]
    rw [hstep]
    exact ih _

/-- `get_tracking_by_user_id` after a row map preserving identity and
creation time. -/
lemma get_tracking_map (db dbv : DB) (uid : Nat)
    (f : YandexTracking → YandexTracking)
    (h : dbv.trackings = db.trackings.map f)
    (hu : ∀ tr, (f tr).user_id = tr.user_id)
    (hca : ∀ tr, (f tr).created_at = tr.created_at) :
    get_tracking_by_user_id dbv uid = (get_tracking_by_user_id db uid).map f := by
  unfold get_tracking_by_user_id
  rw [h, filter_user_map f hu uid]
  have hfold := pick_foldl_map f hca
    (db.trackings.filter (fun tr => tr.user_id == uid)) none
  simpa using hfold

/-- Full case analysis of `send_full_conversion_chain` past the duplicate
check: either an aborted visit-reopen (false, only pageview requests, db
unchanged), or the ecommerce verdict decides between persisting (true)
and aborting (false), over a visit-touched database `dbv` whose
conversions are unchanged and whose tracking rows keep their identity. -/
lemma chain_outcome (cfg : MetrikaConfig) (net : Net) (db : DB) (now : Int)
    (uid : Nat) (amt : Int) (pid : String) (m : Nat) (promo : Option String)
    (t : YandexTracking)
    (hc : configured cfg = true) (ht : get_tracking_by_user_id db uid = some t)
    (hs : is_conversion_sent_for_payment db uid pid = false) :
    ∃ (pre : List Request) (dbv : DB) (ps : List (String × String))
      (convReqs : List Request),
      dbv.conversions = db.conversions ∧
      (∃ t2, get_tracking_by_user_id dbv uid = some t2) ∧
      (∀ r ∈ pre, r.event_type = "pageview") ∧
      (∀ r ∈ convReqs, r.event_type = "conversion") ∧
      (send_full_conversion_chain cfg net db now uid amt pid m promo
          = ⟨db, false, pre⟩
       ∨ (net ps = true ∧
           send_full_conversion_chain cfg net db now uid amt pid m promo
             = ⟨(save_conversion_record dbv now uid pid amt).1, true,
                pre ++ ⟨ps, "ecommerce_purchase"⟩ :: convReqs⟩)
       ∨ (net ps = false ∧
           send_full_conversion_chain cfg net db now uid amt pid m promo
             = ⟨dbv, false, pre ++ [⟨ps, "ecommerce_purchase"⟩]⟩)) := by
  unfold send_full_conversion_chain
  rw [ht]
  simp only [hc, hs, Bool.not_true, Bool.false_eq_true, if_false]
  by_cases hvis : now - last_or_first t > chainVisitThresholdSeconds
  · rw [if_pos hvis]
    rcases send_pageview_cases cfg net t.yandex_client_id
        (some ("https://t.me/" ++ cfg.bot_username ++ "/purchase"))
        "Purchase Visit" "https://yandex.ru" none now with hpv | ⟨psv, hpv⟩
    · rw [hpv]
      refine ⟨[], db, [], [], rfl, ⟨t, ht⟩, ?_, ?_, Or.inl ?_⟩
      · intro r hr; exact absurd hr (List.not_mem_nil r)
      · intro r hr; exact absurd hr (List.not_mem_nil r)
      · simp
    · rw [hpv]
      cases hnp : net psv with
      | false =>
        refine ⟨[⟨psv, "pageview"⟩], db, [], [], rfl, ⟨t, ht⟩, ?_, ?_, Or.inl ?_⟩
        · intro r hr
          simp only [List.mem_singleton] at hr
          rw [hr]
        · intro r hr; exact absurd hr (List.not_mem_nil r)
        · simp [hnp]
      | true =>
        simp only [hnp, if_true]
        set db1 := (update_last_visit_time db now t.tracking_id).1 with hdb1
        set db2 := (increment_visit_count db1 t.tracking_id).1 with hdb2
        have htrk : db2.trackings = db.trackings.map
            (fun tr =>
              (fun r => if r.tracking_id == t.tracking_id
                then { r with visit_count := r.visit_count + 1 } else r)
              (if tr.tracking_id == t.tracking_id
                then { tr with last_visit_time := some now } else tr)) := by
          rw [hdb2, hdb1]
          unfold increment_visit_count update_last_visit_time
          simp [List.map_map]
        have hget2 : ∃ t2, get_tracking_by_user_id db2 uid = some t2 := by
          rw [get_tracking_map db db2 uid _ htrk ?_ ?_, ht]
          · exact ⟨_, rfl⟩
          · intro tr
            by_cases h1 : (tr.tracking_id == t.tracking_id) = true <;> simp [h1]
          · intro tr
            by_cases h1 : (tr.tracking_id == t.tracking_id) = true <;> simp [h1]
        obtain ⟨ps, convReqs, hconv, hT, hF⟩ := chainFinish_cases cfg net db2 now
          uid amt pid m promo t.yandex_client_id
          ("https://t.me/" ++ cfg.bot_username ++ "/purchase")
          [⟨psv, "pageview"⟩] hc
        refine ⟨[⟨psv, "pageview"⟩], db2, ps, convReqs, rfl, hget2, ?_, hconv, ?_⟩
        · intro r hr
          simp only [List.mem_singleton] at hr
          rw [hr]
        · cases hnet : net ps with
          | true => exact Or.inr (Or.inl ⟨rfl, hT hnet⟩)
          | false => exact Or.inr (Or.inr ⟨rfl, hF hnet⟩)
  · rw [if_neg hvis]
    obtain ⟨ps, convReqs, hconv, hT, hF⟩ := chainFinish_cases cfg net db now uid
      amt pid m promo t.yandex_client_id
      ("https://t.me/" ++ cfg.bot_username ++ "/purchase") [] hc
    refine ⟨[], db, ps, convReqs, rfl, ⟨t, ht⟩, ?_, hconv, ?_⟩
    · intro r hr; exact absurd hr (List.not_mem_nil r)
    · cases hnet : net ps with
      | true => exact Or.inr (Or.inl ⟨rfl, by simpa using hT hnet⟩)
      | false => exact Or.inr (Or.inr ⟨rfl, by simpa using hF hnet⟩)

/-! ### Concrete fixtures used by counterexamples and witnesses -/

/-- A configured service (counter id and token present). -/
def cfgT : MetrikaConfig := ⟨some "123", some "tok", "bot"⟩

/-- An unconfigured service (token missing). -/
def cfgBad : MetrikaConfig := ⟨some "123", none, "bot"⟩

/-- A collector that accepts every request. -/
def netTrue : Net := fun _ => true

/-- A collector that rejects exactly the requests whose transaction id is
`p1` (a dispatcher stub failing for one payment). -/
def netNoP1 : Net := fun ps => !(ps.any (fun q => q.1 == "ti" && q.2 == "p1"))

/-- A collector that rejects exactly the `purchase_completed` goal event. -/
def netNoGoal : Net := fun ps =>
  !(ps.any (fun q => q.1 == "ea" && q.2 == "purchase_completed"))

/-- An empty database. -/
def dbEmpty : DB := ⟨[], [], [], 1⟩

/-- A tracking record whose visit is fresh (`last_visit_time = 100`). -/
def trOpen : YandexTracking := ⟨1, 7, "1234567890", some "123", 100, some 100, 1, 100⟩

/-- A database holding only `trOpen`. -/
def dbOpen : DB := ⟨[trOpen], [], [], 2⟩

/-- A tracking record whose last visit is 44100 s (12 h 15 min) before
time 100000. -/
def trStale : YandexTracking := ⟨1, 7, "1234567890", some "123", 55900, some 55900, 1, 100⟩

/-- A database holding only `trStale`. -/
def dbStale : DB := ⟨[trStale], [], [], 2⟩

/-- Two users: user 7 has two succeeded unconverted payments (`p1`, `p2`),
user 8 has one (`p3`). -/
def dbTwoUsers : DB :=
  ⟨[⟨1, 7, "1234567890", some "123", 100, some 100, 1, 100⟩,
    ⟨2, 8, "2234567890", some "123", 100, some 100, 1, 100⟩],
   [],
   [⟨"p1", 7, "succeeded", 500, 1, none, 100⟩,
    ⟨"p2", 7, "succeeded", 600, 1, none, 200⟩,
    ⟨"p3", 8, "succeeded", 700, 1, none, 100⟩],
   3⟩

/-- Three users with one succeeded unconverted payment each
(`p1`, `p2`, `p3`). -/
def dbThreeUsers : DB :=
  ⟨[⟨1, 7, "1234567890", some "123", 100, some 100, 1, 100⟩,
    ⟨2, 8, "2234567890", some "123", 100, some 100, 1, 100⟩,
    ⟨3, 9, "3234567890", some "123", 100, some 100, 1, 100⟩],
   [],
   [⟨"p1", 7, "succeeded", 500, 1, none, 100⟩,
    ⟨"p2", 8, "succeeded", 600, 1, none, 200⟩,
    ⟨"p3", 9, "succeeded", 700, 1, none, 100⟩],
   4⟩

/-! ### C10: the digit check is applied to the dot-free string -/

/-- C10: `_validate_client_id` requires at least one digit: any string
consisting only of `'.'` characters is rejected (whatever its length),
because `clean_id.replace('.', '').isdigit()` runs on the empty string. -/
theorem validate_client_id_requires_digit (s : String)
    (h : ∀ c ∈ s.data, c = '.') : validate_client_id s = false := by
  have hmem : ∀ c ∈ (pyStrip s).data, c ∈ s.data := by
    intro c hc
    unfold pyStrip at hc
    simp only [String.data] at hc
    rw [List.mem_reverse] at hc
    have hc2 := (List.dropWhile_sublist _).mem hc
    rw [List.mem_reverse] at hc2
    exact (List.dropWhile_sublist _).mem hc2
  have hfil : (pyStrip s).data.filter (fun c => !(c == '.')) = [] := by
    rw [List.filter_eq_nil_iff]
    intro c hc
    have := h c (hmem c hc)
    simp [this]
  unfold validate_client_id
  split
  · rfl
  · simp [pyIsdigit, pyRemoveDots, hfil]

/-- C10 witness: ten dots are rejected. -/
theorem validate_client_id_requires_digit_witness :
    validate_client_id ".........." = false :=
  validate_client_id_requires_digit ".........." (by decide)

/-! ### C9: characterisation of `_validate_client_id` -/

/-- C9 counterexample: the string of ten dots satisfies the spec's
predicate (non-empty, every character a digit or `'.'`, length 10-30) but
`_validate_client_id` rejects it, so the claimed "if and only if" fails. -/
theorem validate_client_id_spec_mismatch :
    spec_validate_client_id ".........." = true ∧
    validate_client_id ".........." = false := by decide

/-- A list is non-empty in the `isEmpty` sense iff it is not `[]`. -/
lemma isEmpty_eq_false_iff_ne_nil {α : Type} (l : List α) :
    l.isEmpty = false ↔ l ≠ [] := by
  cases l <;> simp

/-- Bridge between the code's `replace('.','').isdigit()` test and the
predicate "every character is a digit or a dot, and some character is a
digit". -/
lemma pyIsdigit_removeDots (l : List Char) :
    pyIsdigit ⟨l.filter (fun c => !(c == '.'))⟩ = true ↔
      ((∀ c ∈ l, c.isDigit = true ∨ c = '.') ∧ (∃ c ∈ l, c.isDigit = true)) := by
  have hdot : ('.' : Char).isDigit = false := by decide
  simp only [pyIsdigit, Bool.and_eq_true, Bool.not_eq_true', List.all_eq_true, String.data,
    isEmpty_eq_false_iff_ne_nil]
  constructor
  · rintro ⟨hne, hall⟩
    constructor
    · intro c hc
      by_cases hd : c = '.'
      · exact Or.inr hd
      · refine Or.inl (hall c ?_)
        rw [List.mem_filter]
        simp [hc, hd]
    · obtain ⟨c, hc⟩ := List.exists_mem_of_ne_nil _ hne
      rw [List.mem_filter] at hc
      exact ⟨c, hc.1, hall c (by rw [List.mem_filter]; exact hc)⟩
  · rintro ⟨hall, c, hcl, hcd⟩
    have hcne : c ≠ '.' := by
      intro hEq; rw [hEq, hdot] at hcd; exact Bool.false_ne_true hcd
    constructor
    · intro hnil
      have hmem : c ∈ l.filter (fun c => !(c == '.')) := by
        rw [List.mem_filter]; simp [hcl, hcne]
      rw [hnil] at hmem
      exact absurd hmem (List.not_mem_nil c)
    · intro d hd
      rw [List.mem_filter] at hd
      rcases hall d hd.1 with h | h
      · exact h
      · exfalso
        have hd2 := hd.2
        simp [h] at hd2

/-- C9 amended: for a trimmed string, `_validate_client_id` returns true
iff the length is between 10 and 30, every character is a decimal digit or
`'.'`, **and at least one character is a digit** (the digit check runs on
the dot-free string, so all-dot inputs are rejected). -/
theorem validate_client_id_characterization (s : String) (hs : pyStrip s = s) :
    validate_client_id s = true ↔
      (10 ≤ s.length ∧ s.length ≤ 30 ∧
       (∀ c ∈ s.data, c.isDigit = true ∨ c = '.') ∧
       (∃ c ∈ s.data, c.isDigit = true)) := by
  by_cases hempty : s = ""
  · subst hempty; decide
  · have hlen : ¬(s = "" ∨ (pyStrip s).length = 0) := by
      rw [hs]
      push_neg
      refine ⟨hempty, ?_⟩
      intro h0
      apply hempty
      cases s with
      | mk data =>
        simp only [String.length, String.data, List.length_eq_zero] at h0
        simp [h0]
    unfold validate_client_id
    rw [hs, if_neg (by rwa [hs] at hlen)]
    have hkey : pyIsdigit (pyRemoveDots s) = true ↔
        ((∀ c ∈ s.data, c.isDigit = true ∨ c = '.') ∧ (∃ c ∈ s.data, c.isDigit = true)) := by
      rw [pyRemoveDots]
      exact pyIsdigit_removeDots s.data
    by_cases hd : pyIsdigit (pyRemoveDots s) = true
    · have hrhs := hkey.mp hd
      rw [if_neg (by rw [hd]; decide)]
      by_cases hl : s.length < 10 ∨ s.length > 30
      · rw [if_pos hl]
        constructor
        · intro h; exact absurd h (by decide)
        · rintro ⟨h10, h30, -, -⟩; omega
      · rw [if_neg hl]
        simp only [true_iff]
        exact ⟨by omega, by omega, hrhs.1, hrhs.2⟩
    · rw [Bool.not_eq_true] at hd
      rw [if_pos (by rw [hd]; decide)]
      constructor
      · intro h; exact absurd h (by decide)
      · rintro ⟨-, -, hall, hex⟩
        exact absurd (hkey.mpr ⟨hall, hex⟩) (by rw [hd]; exact Bool.false_ne_true)

/-- C9 witness: the characterisation instantiated at `"1234567890"`. -/
theorem validate_client_id_characterization_witness :
    validate_client_id "1234567890" = true ↔
      (10 ≤ ("1234567890" : String).length ∧ ("1234567890" : String).length ≤ 30 ∧
       (∀ c ∈ ("1234567890" : String).data, c.isDigit = true ∨ c = '.') ∧
       (∃ c ∈ ("1234567890" : String).data, c.isDigit = true)) :=
  validate_client_id_characterization "1234567890" (by decide)

/-! ### C3: which send operations an invalid client id short-circuits -/

/-- C3 counterexample: `"abc"` fails validation, yet
`send_ecommerce_purchase` performs no client-id validation: it attempts
one outbound request (and here returns true), contradicting "every send
operation returns false without attempting any outbound I/O". -/
theorem ecommerce_send_skips_validation :
    validate_client_id "abc" = false ∧
    (send_ecommerce_purchase cfgT netTrue "abc" "p1" 100 "RUB" [] none none none 50).ok
      = true ∧
    (send_ecommerce_purchase cfgT netTrue "abc" "p1" 100 "RUB" [] none none none
        50).requests.length = 1 := by
  decide

/-- C3 amended: an invalid client id makes `send_pageview` and
`send_conversion` return false with no outbound request, but
`send_ecommerce_purchase` does not validate the client id: whenever the
service is configured it still attempts exactly one outbound request. -/
theorem invalid_client_id_send_behavior (cfg : MetrikaConfig) (net : Net)
    (client_id : String) (pu : Option String) (pt rf : String) (et : Option Int)
    (gn : String) (gv : Option Int) (cur : String) (pu2 : Option String)
    (et2 : Option Int) (ti : String) (rev : Int) (cur2 : String)
    (prods : List Product) (pu3 : Option String) (et3 : Option Int)
    (coup : Option String) (now : Int)
    (hv : validate_client_id client_id = false) :
    send_pageview cfg net client_id pu pt rf et now = ⟨false, []⟩ ∧
    send_conversion cfg net client_id gn gv cur pu2 et2 now = ⟨false, []⟩ ∧
    (configured cfg = true →
      (send_ecommerce_purchase cfg net client_id ti rev cur2 prods pu3 et3 coup
          now).requests.length = 1) := by
  refine ⟨?_, ?_, ?_⟩
  · unfold send_pageview
    split
    · rfl
    · simp [hv]
  · unfold send_conversion
    split
    · rfl
    · simp [hv]
  · intro hc
    unfold send_ecommerce_purchase
    simp [hc, send_request]

/-- C3 witness: the amended behaviour at `client_id = "abc"`. -/
theorem invalid_client_id_send_behavior_witness :
    send_pageview cfgT netTrue "abc" none "T" "R" none 50 = ⟨false, []⟩ ∧
    send_conversion cfgT netTrue "abc" "purchase" none "RUB" none none 50 = ⟨false, []⟩ ∧
    (configured cfgT = true →
      (send_ecommerce_purchase cfgT netTrue "abc" "p1" 100 "RUB" [] none none none
          50).requests.length = 1) :=
  invalid_client_id_send_behavior cfgT netTrue "abc" none "T" "R" none "purchase" none
    "RUB" none none "p1" 100 "RUB" [] none none none 50 (by decide)

/-! ### C1: repeat upsert with an identical client id -/

/-- C1 counterexample: two successive `create_yandex_tracking` calls for a
new user with the same client id leave `visit_count = 1` and
`last_visit_time` at the first call's time (100, not refreshed to 200):
the identical-client-id branch neither refreshes nor increments. -/
theorem create_tracking_twice_visit_count_one :
    ((create_yandex_tracking
        (create_yandex_tracking dbEmpty 100 7 "1234567890" (some "123")).1
        200 7 "1234567890" (some "123")).2.map
      (fun t => (t.visit_count, t.last_visit_time))) = some (1, some 100) := by
  decide

/-- C1 amended: `create_yandex_tracking` with an existing record and an
identical client id is a pure no-op returning the record unchanged (so two
successive calls for a new user leave `visit_count = 1` and
`first_visit_time = last_visit_time`); only a *different* client id
refreshes `last_visit_time` to now and increments `visit_count`; with no
existing record a fresh row with `visit_count = 1` and
`first_visit_time = last_visit_time = now` is inserted. -/
theorem create_yandex_tracking_upsert_behavior (db : DB) (now : Int) (uid : Nat)
    (cid : String) (counter : Option String) :
    (∀ t, get_tracking_by_user_id db uid = some t → t.yandex_client_id = cid →
       create_yandex_tracking db now uid cid counter = (db, some t)) ∧
    (∀ t, get_tracking_by_user_id db uid = some t → t.yandex_client_id ≠ cid →
       (create_yandex_tracking db now uid cid counter).2 =
         some { t with yandex_client_id := cid, counter_id := counter,
                       last_visit_time := some now,
                       visit_count := t.visit_count + 1 }) ∧
    (get_tracking_by_user_id db uid = none →
       (create_yandex_tracking db now uid cid counter).2 =
         some { tracking_id := db.next_id, user_id := uid,
                yandex_client_id := cid, counter_id := counter,
                first_visit_time := now, last_visit_time := some now,
                visit_count := 1, created_at := now }) := by
  refine ⟨?_, ?_, ?_⟩
  · intro t ht hcid
    unfold create_yandex_tracking
    rw [ht]
    simp [hcid]
  · intro t ht hcid
    unfold create_yandex_tracking
    rw [ht]
    simp [hcid]
  · intro ht
    unfold create_yandex_tracking
    rw [ht]

/-- C1 witness: the no-op branch at a concrete database. -/
theorem create_yandex_tracking_upsert_behavior_witness :
    create_yandex_tracking dbOpen 200 7 "1234567890" (some "123") = (dbOpen, some trOpen) :=
  (create_yandex_tracking_upsert_behavior dbOpen 200 7 "1234567890" (some "123")).1
    trOpen (by decide) (by decide)

/-! ### C7: chain with missing configuration or missing tracking -/

/-- C7: `send_full_conversion_chain` returns false with no outbound request
and an unchanged database (hence no persisted conversion) when the service
is not configured, and likewise for any user without a tracking record. -/
theorem conversion_chain_unconfigured_or_untracked (cfg : MetrikaConfig)
    (net : Net) (db : DB) (now : Int) (uid : Nat) (amt : Int) (pid : String)
    (m : Nat) (promo : Option String) :
    (configured cfg = false →
       send_full_conversion_chain cfg net db now uid amt pid m promo
         = ⟨db, false, []⟩) ∧
    (get_tracking_by_user_id db uid = none →
       send_full_conversion_chain cfg net db now uid amt pid m promo
         = ⟨db, false, []⟩) := by
  constructor
  · intro h
    unfold send_full_conversion_chain
    simp [h]
  · intro h
    unfold send_full_conversion_chain
    rw [h]
    split <;> rfl

/-- C7 witness: unconfigured service and untracked user at concrete
inputs. -/
theorem conversion_chain_unconfigured_or_untracked_witness :
    send_full_conversion_chain cfgBad netTrue dbOpen 200 7 500 "pay1" 1 none
      = ⟨dbOpen, false, []⟩ ∧
    send_full_conversion_chain cfgT netTrue dbEmpty 200 7 500 "pay1" 1 none
      = ⟨dbEmpty, false, []⟩ :=
  ⟨(conversion_chain_unconfigured_or_untracked cfgBad netTrue dbOpen 200 7 500 "pay1"
      1 none).1 (by decide),
   (conversion_chain_unconfigured_or_untracked cfgT netTrue dbEmpty 200 7 500 "pay1"
      1 none).2 (by decide)⟩

/-! ### C4: conversion uniqueness and where it is enforced -/

/-- C4 counterexample: the body of `save_conversion_record` performs no
pre-insert duplicate check — run with a storage layer whose flush does not
enforce the unique constraint, two identical calls persist two rows for
the same `(user_id, payment_id)`.  Uniqueness therefore rests solely on
the storage constraint, contradicting "enforced by a check before insert
(not only by the storage constraint)". -/
theorem save_conversion_record_no_precheck :
    ((save_conversion_record_unchecked
        (save_conversion_record_unchecked dbEmpty 10 1 "p1" 100).1
        20 1 "p1" 100).1.conversions.filter
      (fun c => c.user_id == 1 && c.payment_id == "p1")).length = 2 := by
  decide

/-- C4 amended: at most one conversion row per `(user_id, payment_id)` is
guaranteed by the storage unique constraint, not by a check inside
`save_conversion_record`: a second identical call attempts the insert, the
constraint rejects it, the exception is caught and `None` is returned
(signalling failure, not specifically "already exists"), leaving exactly
one persisted row; the pre-insert check protecting send side-effects lives
in the caller (`is_conversion_sent_for_payment` at the start of the
conversion chain). -/
theorem save_conversion_record_duplicate (db : DB) (now now2 : Int) (uid : Nat)
    (pid : String) (amt amt2 : Int)
    (h : is_conversion_sent_for_payment db uid pid = false) :
    (save_conversion_record db now uid pid amt).2.isSome = true ∧
    save_conversion_record (save_conversion_record db now uid pid amt).1 now2 uid
        pid amt2
      = ((save_conversion_record db now uid pid amt).1, none) ∧
    ((save_conversion_record db now uid pid amt).1.conversions.filter
        (fun c => c.user_id == uid && c.payment_id == pid)).length = 1 := by
  have hfil : db.conversions.filter (fun c => c.user_id == uid && c.payment_id == pid)
      = [] := by
    rw [List.filter_eq_nil_iff]
    intro c hc
    intro hpred
    have : db.conversions.any (fun c => c.user_id == uid && c.payment_id == pid)
        = true := List.any_of_mem hc hpred
    rw [is_conversion_sent_for_payment] at h
    rw [h] at this
    exact Bool.false_ne_true this
  have h1 : is_conversion_sent_for_payment (save_conversion_record db now uid pid amt).1
      uid pid = true := by
    unfold save_conversion_record
    rw [h]
    simp [is_conversion_sent_for_payment]
  refine ⟨?_, ?_, ?_⟩
  · unfold save_conversion_record
    rw [h]
    simp
  · have h2 : ∀ db1 : DB, is_conversion_sent_for_payment db1 uid pid = true →
        save_conversion_record db1 now2 uid pid amt2 = (db1, none) := by
      intro db1 hh
      unfold save_conversion_record
      rw [hh]
      simp
    exact h2 _ h1
  · unfold save_conversion_record
    rw [h]
    simp [List.filter_append, hfil]

/-- C4 witness: the duplicate behaviour at a concrete database. -/
theorem save_conversion_record_duplicate_witness :
    (save_conversion_record dbEmpty 10 1 "p1" 100).2.isSome = true ∧
    save_conversion_record (save_conversion_record dbEmpty 10 1 "p1" 100).1 20 1
        "p1" 200
      = ((save_conversion_record dbEmpty 10 1 "p1" 100).1, none) ∧
    ((save_conversion_record dbEmpty 10 1 "p1" 100).1.conversions.filter
        (fun c => c.user_id == 1 && c.payment_id == "p1")).length = 1 :=
  save_conversion_record_duplicate dbEmpty 10 20 1 "p1" 100 200 (by decide)

/-! ### C2: session-openness thresholds -/

/-- C2 counterexample: at `now = 100000` with `last_visit_time` 44100 s
(12 h 15 min) earlier, the spec's openness formula (12 h + 30 min, max of
the two timestamps) says the visit is open — and `track_visit` indeed
appends without any request — yet `send_full_conversion_chain` starts a
new visit with a pageview, because it compares against 12 h only.  The
two code paths do not share one decision with the claimed threshold. -/
theorem conversion_chain_threshold_counterexample :
    spec_is_visit_open trStale 100000 = true ∧
    track_visit cfgT netTrue dbStale 100000 7 "1234567890" none "T" "R"
      = ⟨dbStale, true, []⟩ ∧
    ((send_full_conversion_chain cfgT netTrue dbStale 100000 7 500 "pay1" 1
        none).requests.map (fun r => r.event_type))
      = ["pageview", "ecommerce_purchase", "conversion"] := by
  decide

/-- C2 amended: `track_visit` treats the visit as open iff
`now - (last_visit_time or first_visit_time) ≤ 12 h + 30 min` (45000 s),
while `send_full_conversion_chain` reopens the visit iff
`now - (last_visit_time or first_visit_time) > 12 h` (43200 s) — two
different thresholds, applied to `last_visit_time` with `first_visit_time`
as fallback (not their max).  With `last_visit_time = now - 11 h` both
treat it open; with `now - 13 h` both closed. -/
theorem visit_openness_thresholds (cfg : MetrikaConfig) (net : Net) (db : DB)
    (now : Int) (uid : Nat) (cid : String) (pu : Option String) (pt rf : String)
    (amt : Int) (pid : String) (m : Nat) (promo : Option String)
    (t : YandexTracking)
    (hc : configured cfg = true) (ht : get_tracking_by_user_id db uid = some t)
    (hv : validate_client_id cid = true)
    (hvt : validate_client_id t.yandex_client_id = true)
    (hs : is_conversion_sent_for_payment db uid pid = false) :
    (now - last_or_first t ≤ trackVisitThresholdSeconds →
       track_visit cfg net db now uid cid pu pt rf = ⟨db, true, []⟩) ∧
    (trackVisitThresholdSeconds < now - last_or_first t →
       (track_visit cfg net db now uid cid pu pt rf).requests.map
           (fun r => r.event_type) = ["pageview"]) ∧
    (now - last_or_first t ≤ chainVisitThresholdSeconds →
       ((send_full_conversion_chain cfg net db now uid amt pid m promo).requests.map
           (fun r => r.event_type)).head? ≠ some "pageview") ∧
    (chainVisitThresholdSeconds < now - last_or_first t →
       ((send_full_conversion_chain cfg net db now uid amt pid m promo).requests.map
           (fun r => r.event_type)).head? = some "pageview") := by
  refine ⟨?_, ?_, ?_, ?_⟩
  · intro h
    unfold track_visit
    rw [ht]
    simp only [hc, hv, Bool.not_true, Bool.or_self, Bool.false_eq_true, if_false]
    rw [if_neg (not_lt.mpr h)]
  · intro h
    unfold track_visit
    rw [ht]
    simp only [hc, hv, Bool.not_true, Bool.or_self, Bool.false_eq_true, if_false]
    rw [if_pos h]
    simp only [send_pageview, hc, hv, Bool.not_true, Bool.false_eq_true, if_false,
      send_request]
    split <;> simp
  · intro h
    unfold send_full_conversion_chain
    rw [ht]
    simp only [hc, hs, Bool.not_true, Bool.false_eq_true, if_false]
    rw [if_neg (not_lt.mpr h)]
    obtain ⟨ps, convReqs, hconv, hT, hF⟩ := chainFinish_cases cfg net db now uid
      amt pid m promo t.yandex_client_id
      ("https://t.me/" ++ cfg.bot_username ++ "/purchase") [] hc
    cases hnet : net ps with
    | true =>
      rw [hT hnet]
      simp
    | false =>
      rw [hF hnet]
      simp
  · intro h
    unfold send_full_conversion_chain
    rw [ht]
    simp only [hc, hs, Bool.not_true, Bool.false_eq_true, if_false]
    rw [if_pos h]
    obtain ⟨psv, hpv⟩ := send_pageview_shape cfg net t.yandex_client_id
      (some ("https://t.me/" ++ cfg.bot_username ++ "/purchase"))
      "Purchase Visit" "https://yandex.ru" none now hc hvt
    rw [hpv]
    cases hnp : net psv with
    | false => simp [hnp]
    | true =>
      simp only [hnp, if_true]
      obtain ⟨ps, convReqs, hconv, hT, hF⟩ := chainFinish_cases cfg net
        (increment_visit_count (update_last_visit_time db now t.tracking_id).1
          t.tracking_id).1 now uid amt pid m promo t.yandex_client_id
        ("https://t.me/" ++ cfg.bot_username ++ "/purchase")
        [⟨psv, "pageview"⟩] hc
      cases hnet : net ps with
      | true => rw [hT hnet]; simp
      | false => rw [hF hnet]; simp

/-- C2 witness: both openness branches at concrete inputs (`trOpen` is
fresh at `now = 200`; `trStale` is 44100 s old at `now = 100000`, open for
`track_visit` but reopened by the chain). -/
theorem visit_openness_thresholds_witness :
    track_visit cfgT netTrue dbOpen 200 7 "1234567890" none "T" "R"
      = ⟨dbOpen, true, []⟩ ∧
    ((send_full_conversion_chain cfgT netTrue dbStale 100000 7 500 "pay1" 1
        none).requests.map (fun r => r.event_type)).head? = some "pageview" :=
  ⟨(visit_openness_thresholds cfgT netTrue dbOpen 200 7 "1234567890" none "T" "R"
      500 "pay1" 1 none trOpen (by decide) (by decide) (by decide) (by decide)
      (by decide)).1 (by decide),
   (visit_openness_thresholds cfgT netTrue dbStale 100000 7 "1234567890" none "T" "R"
      500 "pay1" 1 none trStale (by decide) (by decide) (by decide) (by decide)
      (by decide)).2.2.2 (by decide)⟩

/-! ### C6: persistence exactly on ecommerce success -/

/-- C6: past the duplicate check, `send_full_conversion_chain` returns
true exactly when it persists the conversion record, and exactly when an
ecommerce request was attempted and accepted by the collector — for every
oracle, so a failing `purchase_completed` goal request never aborts the
chain or blocks persistence, while an ecommerce failure yields false with
no conversion persisted. -/
theorem conversion_chain_persist_iff_ecom_success (cfg : MetrikaConfig)
    (net : Net) (db : DB) (now : Int) (uid : Nat) (amt : Int) (pid : String)
    (m : Nat) (promo : Option String) (t : YandexTracking)
    (hc : configured cfg = true) (ht : get_tracking_by_user_id db uid = some t)
    (hs : is_conversion_sent_for_payment db uid pid = false) :
    ((send_full_conversion_chain cfg net db now uid amt pid m promo).ok = true ↔
      is_conversion_sent_for_payment
        (send_full_conversion_chain cfg net db now uid amt pid m promo).db uid pid
        = true) ∧
    ((send_full_conversion_chain cfg net db now uid amt pid m promo).ok = true ↔
      (send_full_conversion_chain cfg net db now uid amt pid m
          promo).requests.any
        (fun r => r.event_type == "ecommerce_purchase" && net r.params)
        = true) := by
  obtain ⟨pre, dbv, ps, convReqs, hcv, -, hpre, hconv, hcase⟩ :=
    chain_outcome cfg net db now uid amt pid m promo t hc ht hs
  have hsv : is_conversion_sent_for_payment dbv uid pid = false := by
    unfold is_conversion_sent_for_payment at hs ⊢
    rw [hcv]
    exact hs
  have hpre_any : pre.any
      (fun r => r.event_type == "ecommerce_purchase" && net r.params) = false := by
    rw [List.any_eq_false]
    intro r hr
    simp [hpre r hr]
  have hconv_any : convReqs.any
      (fun r => r.event_type == "ecommerce_purchase" && net r.params) = false := by
    rw [List.any_eq_false]
    intro r hr
    simp [hconv r hr]
  rcases hcase with h | ⟨hnet, h⟩ | ⟨hnet, h⟩ <;> rw [h]
  · constructor
    · simp [hs]
    · simp [hpre_any]
  · have hsent : is_conversion_sent_for_payment
        (save_conversion_record dbv now uid pid amt).1 uid pid = true := by
      unfold save_conversion_record
      rw [hsv]
      simp [is_conversion_sent_for_payment]
    constructor
    · simp [hsent]
    · simp [List.any_append, List.any_cons, hnet, hpre_any, hconv_any]
  · constructor
    · simp [hsv]
    · simp [List.any_append, List.any_cons, hnet, hpre_any]

/-- C6 witness: with an oracle that rejects exactly the
`purchase_completed` goal request, the chain still returns true, persists
the conversion, and its request log contains an accepted ecommerce
request. -/
theorem conversion_chain_persist_iff_ecom_success_witness :
    ((send_full_conversion_chain cfgT netNoGoal dbOpen 200 7 500 "pay1" 1
        none).ok = true ↔
      is_conversion_sent_for_payment
        (send_full_conversion_chain cfgT netNoGoal dbOpen 200 7 500 "pay1" 1
          none).db 7 "pay1" = true) ∧
    ((send_full_conversion_chain cfgT netNoGoal dbOpen 200 7 500 "pay1" 1
        none).ok = true ↔
      (send_full_conversion_chain cfgT netNoGoal dbOpen 200 7 500 "pay1" 1
          none).requests.any
        (fun r => r.event_type == "ecommerce_purchase" && netNoGoal r.params)
        = true) :=
  conversion_chain_persist_iff_ecom_success cfgT netNoGoal dbOpen 200 7 500 "pay1"
    1 none trOpen (by decide) (by decide) (by decide)

/-! ### C5: idempotence per payment -/

/-- C5: with a conversion record already present (and the user tracked),
the chain returns true immediately with no outbound request; hence after a
first successful run a second run for the same `(user_id, payment_id)` —
under any oracle, time and amount — returns true with no request, and the
first run attempted exactly one ecommerce request. -/
theorem conversion_chain_idempotent (cfg : MetrikaConfig) (net net2 : Net)
    (db : DB) (now now2 : Int) (uid : Nat) (amt amt2 : Int) (pid : String)
    (m m2 : Nat) (promo promo2 : Option String) (t : YandexTracking)
    (hc : configured cfg = true) (ht : get_tracking_by_user_id db uid = some t)
    (hs : is_conversion_sent_for_payment db uid pid = false)
    (hok : (send_full_conversion_chain cfg net db now uid amt pid m promo).ok
      = true) :
    (∀ (db3 : DB) (t3 : YandexTracking),
        get_tracking_by_user_id db3 uid = some t3 →
        is_conversion_sent_for_payment db3 uid pid = true →
        send_full_conversion_chain cfg net2 db3 now2 uid amt2 pid m2 promo2
          = ⟨db3, true, []⟩) ∧
    send_full_conversion_chain cfg net2
        (send_full_conversion_chain cfg net db now uid amt pid m promo).db now2
        uid amt2 pid m2 promo2
      = ⟨(send_full_conversion_chain cfg net db now uid amt pid m promo).db,
         true, []⟩ ∧
    ((send_full_conversion_chain cfg net db now uid amt pid m
        promo).requests.filter
      (fun r => r.event_type == "ecommerce_purchase")).length = 1 := by
  have hdedup : ∀ (db3 : DB) (t3 : YandexTracking),
      get_tracking_by_user_id db3 uid = some t3 →
      is_conversion_sent_for_payment db3 uid pid = true →
      send_full_conversion_chain cfg net2 db3 now2 uid amt2 pid m2 promo2
        = ⟨db3, true, []⟩ := by
    intro db3 t3 ht3 hs3
    unfold send_full_conversion_chain
    rw [ht3]
    simp [hc, hs3]
  refine ⟨hdedup, ?_⟩
  obtain ⟨pre, dbv, ps, convReqs, hcv, ⟨t2, hget2⟩, hpre, hconv, hcase⟩ :=
    chain_outcome cfg net db now uid amt pid m promo t hc ht hs
  have hsv : is_conversion_sent_for_payment dbv uid pid = false := by
    unfold is_conversion_sent_for_payment at hs ⊢
    rw [hcv]
    exact hs
  have hpf : pre.filter (fun r => r.event_type == "ecommerce_purchase") = [] := by
    rw [List.filter_eq_nil_iff]
    intro r hr
    simp [hpre r hr]
  have hcf : convReqs.filter (fun r => r.event_type == "ecommerce_purchase")
      = [] := by
    rw [List.filter_eq_nil_iff]
    intro r hr
    simp [hconv r hr]
  rcases hcase with h | ⟨hnet, h⟩ | ⟨hnet, h⟩
  · rw [h] at hok
    simp at hok
  · have hsent : is_conversion_sent_for_payment
        (save_conversion_record dbv now uid pid amt).1 uid pid = true := by
      unfold save_conversion_record
      rw [hsv]
      simp [is_conversion_sent_for_payment]
    have hget3 : get_tracking_by_user_id
        (save_conversion_record dbv now uid pid amt).1 uid = some t2 := by
      rw [get_tracking_eq_of_trackings_eq _ dbv uid
        (save_conversion_record_trackings dbv now uid pid amt)]
      exact hget2
    constructor
    · rw [h]
      exact hdedup _ t2 hget3 hsent
    · rw [h]
      simp [List.filter_append, List.filter_cons, hpf, hcf]
  · rw [h] at hok
    simp at hok

/-- C5 witness: a successful first run followed by a no-op second run at a
concrete database. -/
theorem conversion_chain_idempotent_witness :
    send_full_conversion_chain cfgT netTrue
        (send_full_conversion_chain cfgT netTrue dbOpen 200 7 500 "pay1" 1
          none).db 300 7 500 "pay1" 1 none
      = ⟨(send_full_conversion_chain cfgT netTrue dbOpen 200 7 500 "pay1" 1
          none).db, true, []⟩ ∧
    ((send_full_conversion_chain cfgT netTrue dbOpen 200 7 500 "pay1" 1
        none).requests.filter
      (fun r => r.event_type == "ecommerce_purchase")).length = 1 :=
  (conversion_chain_idempotent cfgT netTrue netTrue dbOpen 200 300 7 500 500
    "pay1" 1 1 none none trOpen (by decide) (by decide) (by decide)
    (by decide)).2

/-! ### C8: the resend tally -/

/-- The inner per-payment loop never changes `processed`. -/
lemma resendPaymentStep_processed (cfg : MetrikaConfig) (net : Net) (now : Int)
    (uid : Nat) :
    ∀ (ps : List PaymentInfo) (acc : DB × Tally × List Request),
      (ps.foldl (resendPaymentStep cfg net now uid) acc).2.1.processed
        = acc.2.1.processed := by
  intro ps
  induction ps with
  | nil => intro acc; rfl
  | cons p ps ih =>
    intro acc
    rw [List.foldl_cons, ih]
    simp only [resendPaymentStep]
    split <;> rfl

/-- The outer loop increments `processed` once per user entry. -/
lemma resendUserStep_processed (cfg : MetrikaConfig) (net : Net) (now : Int) :
    ∀ (users : List (Nat × UserPayments)) (acc : DB × Tally × List Request),
      (users.foldl (resendUserStep cfg net now) acc).2.1.processed
        = acc.2.1.processed + users.length := by
  intro users
  induction users with
  | nil => intro acc; simp
  | cons e users ih =>
    intro acc
    rw [List.foldl_cons, ih]
    unfold resendUserStep
    rw [resendPaymentStep_processed]
    simp
    omega

/-- C8 counterexample: a store with 3 unconverted succeeded payments where
the dispatcher rejects exactly one of them (`p1`), but two of the
payments belong to the same user: the tally is
`{processed: 2, success: 2, failed: 1}`, not the claimed
`{processed: 3, …}` — `processed` counts users, not payments. -/
theorem resend_tally_counts_users_counterexample :
    (dbTwoUsers.payments.filter (fun p => p.status == "succeeded")).length = 3 ∧
    dbTwoUsers.conversions = [] ∧
    (resend_missing_conversions cfgT netNoP1 dbTwoUsers 200 50).2.1
      = ⟨2, 2, 1⟩ := by
  decide

/-- C8 amended: `processed` counts the enumerated *users* with unconverted
succeeded payments (one increment per user entry, for every configured
run), while the chain still runs once per such payment, `success`/`failed`
counting per payment; on a store whose 3 unconverted succeeded payments
belong to 3 distinct users, with the dispatcher rejecting exactly one, the
tally is `{processed: 3, success: 2, failed: 1}`; the pure model is total,
so no exception escapes. -/
theorem resend_missing_conversions_tally :
    (resend_missing_conversions cfgT netNoP1 dbThreeUsers 200 50).2.1
      = ⟨3, 2, 1⟩ ∧
    (∀ (cfg : MetrikaConfig) (net : Net) (db : DB) (now : Int) (limit : Nat),
      (resend_missing_conversions cfg net db now limit).2.1.processed
        = if configured cfg = true
          then (get_users_with_untracked_payments db limit).length else 0) := by
  constructor
  · decide
  · intro cfg net db now limit
    unfold resend_missing_conversions
    by_cases hcf : configured cfg = true
    · rw [hcf]
      simp only [Bool.not_true, Bool.false_eq_true, if_false, if_pos rfl]
      rw [resendUserStep_processed]
      simp [hcf]
    · rw [Bool.not_eq_true] at hcf
      rw [hcf]
      simp [hcf]

end MustProxy
